import Mathlib

/-!
Verification development for the E2E test agent
(`apps/orchestrator/src/test-agent/main.py` of pixell-agent-ui): a shallow
embedding of its session store, scenario phase-handlers and the two streaming
dispatch endpoints, together with theorems about the claims of the design
specification.

Modelling conventions:
* Python dictionaries of the session store and of answer maps are embedded as
  association lists whose insert operation replaces an existing key in place
  (as a Python dict does), so sizes and lookups agree with `len` and `get`.
* JSON payloads yielded by handlers are embedded structurally (`JVal`), one
  field list per Python dict literal, in source order.
* `str(uuid.uuid4())` draws and `time.time()` reads are modelled by an
  explicit supply of fresh values: a natural-number counter threaded through
  every operation; each uuid draw consumes one counter value.
* `await delay()` / `asyncio.sleep` calls are dropped: they affect pacing
  only, never frame content, order or session state.  In particular the
  model of `run_timeout_scenario` ends after its single frame, where the
  real handler first sleeps 600 seconds.
* Message parts of an inbound request are modelled as either a dict bearing a
  string-valued `"text"` key or an opaque other part, which is the shape the
  extraction loop of `handle_message` distinguishes.
* Python truthiness of the id fields of `/a2a/respond` bodies (absent /
  empty string / non-empty string) is modelled on `Option String`; boolean
  metadata flags are modelled as `Option Bool`.
-/

/-- Structural JSON value, the shape of the dict payloads the agent yields. -/
inductive JVal where
  | str : String → JVal
  | num : Int → JVal
  | bool : Bool → JVal
  | arr : List JVal → JVal
  | obj : List (String × JVal) → JVal

/-- Lookup of a key in a JSON object field list (first match). -/
def jlookup : List (String × JVal) → String → Option JVal
  | [], _ => none
  | (k, v) :: rest, key => if k = key then some v else jlookup rest key

/-- Field list of an object value (empty for non-objects). -/
def JVal.fields : JVal → List (String × JVal)
  | .obj fs => fs
  | _ => []

/-- Field access on a JSON value. -/
def jget (j : JVal) (k : String) : Option JVal := jlookup j.fields k

/-- String-valued field access on a JSON value. -/
def jgetStr (j : JVal) (k : String) : Option String :=
  match jget j k with
  | some (.str s) => some s
  | _ => none

/-- One unit of streamed output: a JSON-RPC result frame produced by
`json_rpc_response`, or the terminating sentinel `data: [DONE]` frame. -/
inductive EventFrame where
  | jsonRpc : String → JVal → EventFrame
  | done : EventFrame

/-- Whether a frame is the stream-termination sentinel. -/
def EventFrame.isDone : EventFrame → Bool
  | .done => true
  | .jsonRpc _ _ => false

/-- The JSON-RPC result payload of a frame, if any. -/
def EventFrame.result : EventFrame → Option JVal
  | .jsonRpc _ r => some r
  | .done => none

/-- The `kind` field of a frame payload. -/
def frameKind (f : EventFrame) : Option String :=
  f.result.bind fun r => jgetStr r "kind"

/-- The `status.state` field of a status-update frame payload. -/
def frameState (f : EventFrame) : Option String :=
  f.result.bind fun r => (jget r "status").bind fun st => jgetStr st "state"

/-- Whether a frame is an `input-required` status update. -/
def isInputRequired (f : EventFrame) : Bool :=
  frameState f == some "input-required"

/-- The message parts of a frame: `result.parts` for `message`-kind frames,
`result.status.message.parts` for status updates. -/
def frameParts (f : EventFrame) : List JVal :=
  match f.result with
  | none => []
  | some r =>
    match jget r "parts" with
    | some (.arr ps) => ps
    | _ =>
      match (jget r "status").bind fun st => jget st "message" with
      | some m =>
        match jget m "parts" with
        | some (.arr ps) => ps
        | _ => []
      | none => []

/-- The `data.type` discriminators present among the parts of a frame. -/
def framePayloadTypes (f : EventFrame) : List String :=
  (frameParts f).filterMap fun p => (jget p "data").bind fun d => jgetStr d "type"

/-- Whether some part of the frame carries a structured payload of type `ty`. -/
def frameHasType (f : EventFrame) (ty : String) : Bool :=
  (framePayloadTypes f).contains ty

/-- The free-text contents among the parts of a frame. -/
def frameTexts (f : EventFrame) : List String :=
  (frameParts f).filterMap fun p => jgetStr p "text"

/-- The `questionId`s of the questions of any structured part of the frame. -/
def frameQuestionIds (f : EventFrame) : List String :=
  (frameParts f).flatMap fun p =>
    match (jget p "data").bind fun d => jget d "questions" with
    | some (.arr qs) => qs.filterMap fun q => jgetStr q "questionId"
    | _ => []

/-- The `name`s of the items of any structured part of the frame. -/
def frameItemNames (f : EventFrame) : List String :=
  (frameParts f).flatMap fun p =>
    match (jget p "data").bind fun d => jget d "items" with
    | some (.arr xs) => xs.filterMap fun x => jgetStr x "name"
    | _ => []

/-- Association-list lookup, the model of Python dict indexing. -/
def alistLookup {α : Type} : List (String × α) → String → Option α
  | [], _ => none
  | (k, v) :: rest, key => if k = key then some v else alistLookup rest key

/-- Association-list insert replacing an existing key in place, the model of
Python dict item assignment (insertion order of existing keys is kept). -/
def alistInsert {α : Type} : List (String × α) → String → α → List (String × α)
  | [], k, v => [(k, v)]
  | (k', v') :: rest, k, v =>
    if k' = k then (k, v) :: rest else (k', v') :: alistInsert rest k v

/-- Model of Python `dict.update`: fold the new bindings into the map. -/
def dictUpdate {α : Type} (m new : List (String × α)) : List (String × α) :=
  new.foldl (fun acc kv => alistInsert acc kv.1 kv.2) m

/-- Boolean list-prefix test on character lists. -/
def isPrefixOfB : List Char → List Char → Bool
  | [], _ => true
  | _ :: _, [] => false
  | a :: as, b :: bs => a == b && isPrefixOfB as bs

/-- Boolean substring-occurrence test on character lists. -/
def isSubListB (sub : List Char) : List Char → Bool
  | [] => sub.isEmpty
  | b :: rest => isPrefixOfB sub (b :: rest) || isSubListB sub rest

/-- Whether `sub` occurs contiguously inside `s`. -/
def strContains (s sub : String) : Bool := isSubListB sub.data s.data

/-- Fresh-value supply: the `n`-th fresh identifier, standing in for a
`str(uuid.uuid4())` draw. -/
def freshUuid (n : Nat) : String := "uuid-" ++ toString n

/-- Mirror of the `SessionState` dataclass: per-session workflow state. -/
structure SessionState where
  session_id : String
  workflow_id : String
  current_phase : String
  clarification_responses : List (String × String)
  selection_responses : List (String × List String)
  preview_responses : List (String × Bool)
  created_at : Nat

/-- The in-memory session store `sessions : Dict[str, SessionState]`. -/
def Sessions : Type := List (String × SessionState)

/-- Mirror of `get_or_create_session`: return the stored session unchanged if
present, else store and return a fresh one with phase `"initial"`, empty
response maps, and the current fresh-supply value as `created_at`. -/
def get_or_create_session (st : Sessions) (session_id workflow_id : String)
    (now : Nat) : SessionState × Sessions :=
  match alistLookup st session_id with
  | some s => (s, st)
  | none =>
    let s : SessionState := ⟨session_id, workflow_id, "initial", [], [], [], now⟩
    (s, alistInsert st session_id s)

/-- In-place phase assignment `session.current_phase = p`. -/
def SessionState.setPhase (s : SessionState) (p : String) : SessionState :=
  ⟨s.session_id, s.workflow_id, p, s.clarification_responses,
    s.selection_responses, s.preview_responses, s.created_at⟩

/-- In-place `session.clarification_responses.update(answers)`. -/
def SessionState.updateClarifications (s : SessionState)
    (answers : List (String × String)) : SessionState :=
  ⟨s.session_id, s.workflow_id, s.current_phase,
    dictUpdate s.clarification_responses answers,
    s.selection_responses, s.preview_responses, s.created_at⟩

/-- The `current_phase` of the session stored under `sid`, if any. -/
def phaseOf (st : Sessions) (sid : String) : Option String :=
  (alistLookup st sid).map SessionState.current_phase

/-- JSON object part `{"text": t}`. -/
def textPart (t : String) : JVal := .obj [("text", .str t)]

/-- JSON object part `{"data": d}`. -/
def dataPart (d : JVal) : JVal := .obj [("data", d)]

/-- Assistant message object without metadata. -/
def assistantMsg (parts : List JVal) : JVal :=
  .obj [("role", .str "assistant"), ("parts", .arr parts)]

/-- Assistant message object with a metadata object. -/
def assistantMsgMd (parts : List JVal) (md : JVal) : JVal :=
  .obj [("role", .str "assistant"), ("parts", .arr parts), ("metadata", md)]

/-- A `status-update`-kind JSON-RPC frame. -/
def statusUpdate (rid sid state : String) (msg : JVal) : EventFrame :=
  .jsonRpc rid (.obj [("kind", .str "status-update"), ("sessionId", .str sid),
    ("status", .obj [("state", .str state), ("message", msg)])])

/-- A `message`-kind JSON-RPC frame. -/
def messageFrame (rid sid : String) (parts : List JVal) : EventFrame :=
  .jsonRpc rid (.obj [("kind", .str "message"), ("sessionId", .str sid),
    ("parts", .arr parts)])

/-- An `{id, label, description}` option object of a clarification question. -/
def optionJ (i l d : String) : JVal :=
  .obj [("id", .str i), ("label", .str l), ("description", .str d)]

/-- Mirror of `run_full_plan_mode`: working frame, then the two-question
clarification request; sets the session phase to `"clarification"`. -/
def run_full_plan_mode (request_id session_id workflow_id _message : String)
    (st : Sessions) (ctr : Nat) : List EventFrame × Sessions × Nat :=
  let pr := get_or_create_session st session_id workflow_id ctr
  let f1 := statusUpdate request_id session_id "working"
    (assistantMsgMd [textPart "Analyzing your request..."]
      (.obj [("event_type", .str "analyzing")]))
  let clarification_id := freshUuid ctr
  let session := pr.1.setPhase "clarification"
  let st1 := alistInsert pr.2 session_id session
  let f2 := statusUpdate request_id session_id "input-required"
    (assistantMsg [dataPart (.obj [
      ("type", .str "clarification_needed"),
      ("workflowId", .str workflow_id),
      ("clarificationId", .str clarification_id),
      ("questions", .arr [
        .obj [("questionId", .str "topic"),
          ("questionType", .str "single_choice"),
          ("question", .str "What topic are you interested in?"),
          ("header", .str "Topic"),
          ("options", .arr [
            optionJ "tech" "Technology" "Tech news and discussions",
            optionJ "science" "Science" "Scientific discoveries",
            optionJ "gaming" "Gaming" "Video games and esports"])],
        .obj [("questionId", .str "depth"),
          ("questionType", .str "single_choice"),
          ("question", .str "How deep should the analysis be?"),
          ("header", .str "Depth"),
          ("options", .arr [
            optionJ "quick" "Quick scan" "Surface-level analysis",
            optionJ "detailed" "Detailed" "In-depth analysis"])]]),
      ("message", .str "I need a bit more information to proceed."),
      ("timeoutMs", .num 300000)])])
  ([f1, f2], st1, ctr + 1)

/-- Mirror of `run_full_plan_mode_continued`: record the answers, then yield a
working frame, the discovery result and the selection request; sets the
session phase to `"discovery"` and then `"selection"`. -/
def run_full_plan_mode_continued (request_id session_id workflow_id : String)
    (answers : List (String × String)) (st : Sessions) (ctr : Nat) :
    List EventFrame × Sessions × Nat :=
  let pr := get_or_create_session st session_id workflow_id ctr
  let session := pr.1.updateClarifications answers
  let st1 := alistInsert pr.2 session_id session
  let topic := (alistLookup answers "topic").getD "tech"
  let f1 := statusUpdate request_id session_id "working"
    (assistantMsgMd [textPart ("Discovering " ++ topic ++ "-related subreddits...")]
      (.obj [("event_type", .str "discovering")]))
  let discovery_id := freshUuid ctr
  let session2 := session.setPhase "discovery"
  let st2 := alistInsert st1 session_id session2
  let discovered_items : List JVal := [
    .obj [("id", .str "sub-1"), ("name", .str ("r/" ++ topic)),
      ("description", .str ("Main " ++ topic ++ " subreddit")),
      ("memberCount", .num 15000000)],
    .obj [("id", .str "sub-2"), ("name", .str ("r/" ++ topic ++ "news")),
      ("description", .str ("Latest " ++ topic ++ " news")),
      ("memberCount", .num 2500000)],
    .obj [("id", .str "sub-3"), ("name", .str ("r/ask" ++ topic)),
      ("description", .str ("Questions about " ++ topic)),
      ("memberCount", .num 1800000)]]
  let f2 := statusUpdate request_id session_id "input-required"
    (assistantMsg [dataPart (.obj [
      ("type", .str "discovery_result"),
      ("workflowId", .str workflow_id),
      ("discoveryId", .str discovery_id),
      ("discoveryType", .str "subreddits"),
      ("items", .arr discovered_items),
      ("message", .str ("I found " ++ toString discovered_items.length ++
        " subreddits related to " ++ topic ++ "."))])])
  let selection_id := freshUuid (ctr + 1)
  let session3 := session2.setPhase "selection"
  let st3 := alistInsert st2 session_id session3
  let f3 := statusUpdate request_id session_id "input-required"
    (assistantMsg [dataPart (.obj [
      ("type", .str "selection_required"),
      ("workflowId", .str workflow_id),
      ("selectionId", .str selection_id),
      ("items", .arr discovered_items),
      ("minSelect", .num 1),
      ("maxSelect", .num 3),
      ("message", .str "Please select which subreddits to analyze.")])])
  ([f1, f2, f3], st3, ctr + 2)

/-- Mirror of `run_selection_to_completion`: yield the preview-ready request;
sets the session phase to `"preview"`. -/
def run_selection_to_completion (request_id session_id workflow_id : String)
    (selected_ids : List String) (st : Sessions) (ctr : Nat) :
    List EventFrame × Sessions × Nat :=
  let pr := get_or_create_session st session_id workflow_id ctr
  let plan_id := freshUuid ctr
  let session := pr.1.setPhase "preview"
  let st1 := alistInsert pr.2 session_id session
  let f1 := statusUpdate request_id session_id "input-required"
    (assistantMsg [dataPart (.obj [
      ("type", .str "preview_ready"),
      ("workflowId", .str workflow_id),
      ("planId", .str plan_id),
      ("title", .str "Analysis Plan"),
      ("summary", .str ("I will analyze " ++ toString selected_ids.length ++
        " subreddits for trending topics and sentiment.")),
      ("steps", .arr [
        .obj [("id", .str "step-1"), ("description", .str "Fetch recent posts"),
          ("status", .str "pending")],
        .obj [("id", .str "step-2"), ("description", .str "Analyze sentiment"),
          ("status", .str "pending")],
        .obj [("id", .str "step-3"), ("description", .str "Generate report"),
          ("status", .str "pending")]]),
      ("searchKeywords", .arr [.str "trending", .str "popular", .str "discussion"]),
      ("hashtags", .arr [.str "#analysis", .str "#reddit"]),
      ("requiresApproval", .bool true),
      ("message", .str "Here\x27s my analysis plan. Ready to proceed?")])])
  ([f1], st1, ctr + 1)

/-- Mirror of `run_preview_to_completion`: on rejection, one cancellation
message and phase `"completed"`; on approval, three execution-step frames
(the loop of the source unrolled over its constant step list), the
file-created frame, and the final completion message, with the phase set to
`"executing"` and then `"completed"`. -/
def run_preview_to_completion (request_id session_id workflow_id : String)
    (approved : Bool) (st : Sessions) (ctr : Nat) :
    List EventFrame × Sessions × Nat :=
  let pr := get_or_create_session st session_id workflow_id ctr
  if approved = false then
    let session := pr.1.setPhase "completed"
    let st1 := alistInsert pr.2 session_id session
    ([messageFrame request_id session_id [textPart
      "Analysis cancelled. Let me know if you\x27d like to try something different."]],
      st1, ctr)
  else
    let session := pr.1.setPhase "executing"
    let st1 := alistInsert pr.2 session_id session
    let stepFrame := fun (i : Int) (text : String) =>
      statusUpdate request_id session_id "working"
        (assistantMsgMd [textPart text]
          (.obj [("event_type", .str "executing"), ("step", .num i),
            ("total", .num 3)]))
    let f1 := stepFrame 1 "Fetching posts..."
    let f2 := stepFrame 2 "Analyzing sentiment..."
    let f3 := stepFrame 3 "Generating report..."
    let f4 := statusUpdate request_id session_id "working"
      (assistantMsg [dataPart (.obj [
        ("type", .str "file_created"),
        ("path", .str "/reports/analysis-report.html"),
        ("name", .str "analysis-report.html"),
        ("format", .str "html"),
        ("size", .num 45678),
        ("summary", .str "Comprehensive analysis report with sentiment breakdown")])])
    let session2 := session.setPhase "completed"
    let st2 := alistInsert st1 session_id session2
    let f5 := messageFrame request_id session_id [textPart
      ("Analysis complete! I analyzed the selected subreddits and found:\n\n" ++
        "- **Overall Sentiment**: 67% positive\n" ++
        "- **Trending Topics**: AI, Climate, Gaming\n" ++
        "- **Peak Activity**: Weekday evenings\n\n" ++
        "The detailed report has been saved.")]
    ([f1, f2, f3, f4, f5], st2, ctr)

/-- Mirror of `run_direct_execution`: one working frame then the completion
message echoing the inbound text; sets the session phase to `"completed"`. -/
def run_direct_execution (request_id session_id workflow_id message : String)
    (st : Sessions) (ctr : Nat) : List EventFrame × Sessions × Nat :=
  let pr := get_or_create_session st session_id workflow_id ctr
  let f1 := statusUpdate request_id session_id "working"
    (assistantMsgMd [textPart "Processing your request..."]
      (.obj [("event_type", .str "processing")]))
  let session := pr.1.setPhase "completed"
  let st1 := alistInsert pr.2 session_id session
  let f2 := messageFrame request_id session_id [textPart
    ("I received your message: \x27" ++ message ++
      "\x27\n\nThis is a direct execution response without plan mode.")]
  ([f1, f2], st1, ctr)

/-- Mirror of `run_error_mid_execution`: two working frames then a `failed`
status frame; sets the session phase to `"error"`. -/
def run_error_mid_execution (request_id session_id workflow_id _message : String)
    (st : Sessions) (ctr : Nat) : List EventFrame × Sessions × Nat :=
  let pr := get_or_create_session st session_id workflow_id ctr
  let f1 := statusUpdate request_id session_id "working"
    (assistantMsgMd [textPart "Starting execution..."]
      (.obj [("event_type", .str "executing")]))
  let f2 := statusUpdate request_id session_id "working"
    (assistantMsgMd [textPart "Processing step 1 of 3..."]
      (.obj [("event_type", .str "executing"), ("step", .num 1), ("total", .num 3)]))
  let session := pr.1.setPhase "error"
  let st1 := alistInsert pr.2 session_id session
  let f3 := statusUpdate request_id session_id "failed"
    (assistantMsg [textPart
      "Error: Connection to external API timed out after 30 seconds"])
  ([f1, f2, f3], st1, ctr)

/-- Mirror of `run_multi_clarification`: a single clarification request (the
`category` question); sets the session phase to `"clarification"`. -/
def run_multi_clarification (request_id session_id workflow_id _message : String)
    (st : Sessions) (ctr : Nat) : List EventFrame × Sessions × Nat :=
  let pr := get_or_create_session st session_id workflow_id ctr
  let clarification_id_1 := freshUuid ctr
  let session := pr.1.setPhase "clarification"
  let st1 := alistInsert pr.2 session_id session
  let f1 := statusUpdate request_id session_id "input-required"
    (assistantMsg [dataPart (.obj [
      ("type", .str "clarification_needed"),
      ("workflowId", .str workflow_id),
      ("clarificationId", .str clarification_id_1),
      ("questions", .arr [
        .obj [("questionId", .str "category"),
          ("questionType", .str "single_choice"),
          ("question", .str "What category are you interested in?"),
          ("header", .str "Category"),
          ("options", .arr [
            optionJ "news" "News" "Current events",
            optionJ "entertainment" "Entertainment" "Movies, TV, etc."])]]),
      ("message", .str "First, let me understand your category preference.")])])
  ([f1], st1, ctr + 1)

/-- Mirror of `run_multi_clarification_round2`: record the answers, yield an
acknowledgement working frame then the `timeframe` clarification request.
The session phase is not changed by this handler. -/
def run_multi_clarification_round2 (request_id session_id workflow_id : String)
    (answers : List (String × String)) (st : Sessions) (ctr : Nat) :
    List EventFrame × Sessions × Nat :=
  let pr := get_or_create_session st session_id workflow_id ctr
  let session := pr.1.updateClarifications answers
  let st1 := alistInsert pr.2 session_id session
  let f1 := statusUpdate request_id session_id "working"
    (assistantMsg [textPart "Great! I have one more question..."])
  let clarification_id_2 := freshUuid ctr
  let f2 := statusUpdate request_id session_id "input-required"
    (assistantMsg [dataPart (.obj [
      ("type", .str "clarification_needed"),
      ("workflowId", .str workflow_id),
      ("clarificationId", .str clarification_id_2),
      ("questions", .arr [
        .obj [("questionId", .str "timeframe"),
          ("questionType", .str "single_choice"),
          ("question", .str "What timeframe should I analyze?"),
          ("header", .str "Timeframe"),
          ("options", .arr [
            optionJ "day" "Last 24 hours" "Recent content",
            optionJ "week" "Last week" "Weekly trends",
            optionJ "month" "Last month" "Monthly overview"])]]),
      ("message", .str "One more detail - what timeframe?")])])
  ([f1, f2], st1, ctr + 1)

/-- Mirror of `run_timeout_scenario`: a single working frame; the real handler
then sleeps for 600 seconds and changes nothing further. -/
def run_timeout_scenario (request_id session_id workflow_id _message : String)
    (st : Sessions) (ctr : Nat) : List EventFrame × Sessions × Nat :=
  let pr := get_or_create_session st session_id workflow_id ctr
  let f1 := statusUpdate request_id session_id "working"
    (assistantMsg [textPart "Starting long operation..."])
  ([f1], pr.2, ctr)

/-- An inbound message part: a dict carrying a string `"text"` field, or any
other part (the extraction loop of `handle_message` only distinguishes
these). -/
inductive InPart where
  | text : String → InPart
  | other : InPart

/-- Mirror of the text-extraction loop of `handle_message`: the `"text"` value
of the first part that carries one, defaulting to the empty string. -/
def extractText : List InPart → String
  | [] => ""
  | InPart.text t :: _ => t
  | InPart.other :: rest => extractText rest

/-- The fields of a `POST /` JSON-RPC body that `handle_message` reads.
`plan_mode_enabled` is `message.metadata.plan_mode_enabled` and `planMode`
is `params.metadata.planMode`, each absent or boolean. -/
structure MessageRequest where
  id : Option String
  sessionId : Option String
  workflowId : Option String
  parts : List InPart
  plan_mode_enabled : Option Bool
  planMode : Option Bool

/-- The plan-mode flag of `handle_message`:
`metadata.get("plan_mode_enabled", False) or params.get("metadata", {}).get("planMode", False)`. -/
def planModeFlag (req : MessageRequest) : Bool :=
  req.plan_mode_enabled.getD false || req.planMode.getD false

/-- The scenario dispatch of `handle_message.generate`, after the request
fields have been resolved: the cascade of conditionals of the source,
followed by the unconditional sentinel frame. -/
def generateMessage (scenario : String) (plan_mode : Bool)
    (request_id session_id workflow_id message_text : String)
    (st : Sessions) (ctr : Nat) : List EventFrame × Sessions × Nat :=
  let out :=
    if scenario = "error_mid_execution" then
      run_error_mid_execution request_id session_id workflow_id message_text st ctr
    else if scenario = "timeout_scenario" then
      run_timeout_scenario request_id session_id workflow_id message_text st ctr
    else if scenario = "multi_clarification" then
      run_multi_clarification request_id session_id workflow_id message_text st ctr
    else if scenario = "full_plan_mode" ∧ plan_mode = true then
      run_full_plan_mode request_id session_id workflow_id message_text st ctr
    else if scenario = "direct_execution" ∨ plan_mode = false then
      run_direct_execution request_id session_id workflow_id message_text st ctr
    else
      run_direct_execution request_id session_id workflow_id message_text st ctr
  (out.1 ++ [EventFrame.done], out.2.1, out.2.2)

/-- Mirror of `handle_message` (`POST /`): resolve the correlation id, session
id, workflow id (each defaulted to a fresh uuid draw), the message text and
the plan-mode flag, then stream the scenario dispatch. -/
def handle_message (scenario : String) (st : Sessions) (ctr : Nat)
    (req : MessageRequest) : List EventFrame × Sessions × Nat :=
  let request_id := req.id.getD (freshUuid ctr)
  let session_id := req.sessionId.getD (freshUuid (ctr + 1))
  let workflow_id := req.workflowId.getD (freshUuid (ctr + 2))
  let message_text := extractText req.parts
  let plan_mode := planModeFlag req
  generateMessage scenario plan_mode request_id session_id workflow_id
    message_text st (ctr + 3)

/-- The dispatch rule of the specification, restated from its words for the
refinement claim about `handle_message`: the three fixed scenarios run
unconditionally, `full_plan_mode` runs when configured and plan mode is
enabled, and every other case runs `direct_execution`. -/
def generateMessageSpec (scenario : String) (plan_mode : Bool)
    (request_id session_id workflow_id message_text : String)
    (st : Sessions) (ctr : Nat) : List EventFrame × Sessions × Nat :=
  let out :=
    if scenario = "error_mid_execution" then
      run_error_mid_execution request_id session_id workflow_id message_text st ctr
    else if scenario = "timeout_scenario" then
      run_timeout_scenario request_id session_id workflow_id message_text st ctr
    else if scenario = "multi_clarification" then
      run_multi_clarification request_id session_id workflow_id message_text st ctr
    else if scenario = "full_plan_mode" ∧ plan_mode = true then
      run_full_plan_mode request_id session_id workflow_id message_text st ctr
    else
      run_direct_execution request_id session_id workflow_id message_text st ctr
  (out.1 ++ [EventFrame.done], out.2.1, out.2.2)

/-- The view the specification takes of `handle_message`, built on
`generateMessageSpec` with the same field resolution. -/
def handle_message_spec (scenario : String) (st : Sessions) (ctr : Nat)
    (req : MessageRequest) : List EventFrame × Sessions × Nat :=
  let request_id := req.id.getD (freshUuid ctr)
  let session_id := req.sessionId.getD (freshUuid (ctr + 1))
  let workflow_id := req.workflowId.getD (freshUuid (ctr + 2))
  let message_text := extractText req.parts
  let plan_mode := planModeFlag req
  generateMessageSpec scenario plan_mode request_id session_id workflow_id
    message_text st (ctr + 3)

/-- The fields of a `POST /a2a/respond` body that `handle_respond` reads. -/
structure RespondRequest where
  sessionId : Option String
  clarificationId : Option String
  answers : Option (List (String × String))
  selectionId : Option String
  selectedIds : Option (List String)
  planId : Option String
  approved : Option Bool

/-- Python truthiness of an optional string field: present and non-empty. -/
def truthy : Option String → Bool
  | none => false
  | some s => !(s == "")

/-- The clarification answer shape: `clarification_id and "answers" in body`. -/
def clarShape (req : RespondRequest) : Bool :=
  truthy req.clarificationId && req.answers.isSome

/-- The selection answer shape: `selection_id and "selectedIds" in body`. -/
def selShape (req : RespondRequest) : Bool :=
  truthy req.selectionId && req.selectedIds.isSome

/-- The preview-approval shape: `plan_id and "approved" in body`. -/
def planShape (req : RespondRequest) : Bool :=
  truthy req.planId && req.approved.isSome

/-- The answer dispatch of `handle_respond.generate`: clarification answers
route through the multi-clarification round check or the full-plan-mode
continuation, selections to the preview step, approvals to completion, and
everything else to the fixed failure frame; the sentinel always follows. -/
def generateRespond (scenario : String) (request_id session_id workflow_id : String)
    (req : RespondRequest) (st : Sessions) (ctr : Nat) :
    List EventFrame × Sessions × Nat :=
  let out :=
    if clarShape req then
      let answers := req.answers.getD []
      if scenario = "multi_clarification" then
        let pr := get_or_create_session st session_id workflow_id ctr
        if pr.1.clarification_responses.length = 0 then
          run_multi_clarification_round2 request_id session_id workflow_id
            answers pr.2 ctr
        else
          run_direct_execution request_id session_id workflow_id
            "Final response" pr.2 ctr
      else
        run_full_plan_mode_continued request_id session_id workflow_id
          answers st ctr
    else if selShape req then
      run_selection_to_completion request_id session_id workflow_id
        (req.selectedIds.getD []) st ctr
    else if planShape req then
      run_preview_to_completion request_id session_id workflow_id
        (req.approved.getD false) st ctr
    else
      ([statusUpdate request_id session_id "failed"
        (assistantMsg [textPart "Unknown response type"])], st, ctr)
  (out.1 ++ [EventFrame.done], out.2.1, out.2.2)

/-- Mirror of `handle_respond` (`POST /a2a/respond`): resolve the session id
(defaulting to the empty string), take the stored workflow id or draw a
fresh one, draw a fresh request id, then stream the answer dispatch. -/
def handle_respond (scenario : String) (st : Sessions) (ctr : Nat)
    (req : RespondRequest) : List EventFrame × Sessions × Nat :=
  let session_id := req.sessionId.getD ""
  let wc : String × Nat :=
    match alistLookup st session_id with
    | some s => (s.workflow_id, ctr)
    | none => (freshUuid ctr, ctr + 1)
  let workflow_id := wc.1
  let request_id := freshUuid wc.2
  generateRespond scenario request_id session_id workflow_id req st (wc.2 + 1)

/-- One inbound call to either streaming endpoint. -/
inductive Call where
  | message : MessageRequest → Call
  | respond : RespondRequest → Call

/-- One request/response step of the agent: dispatch the call against the
current store and fresh-value supply. -/
def step (scenario : String) (s : Sessions × Nat) (c : Call) :
    List EventFrame × Sessions × Nat :=
  match c with
  | .message r => handle_message scenario s.1 s.2 r
  | .respond r => handle_respond scenario s.1 s.2 r

/-- The session identifier a call is dispatched against, given the counter
state at the start of the call. -/
def callSessionId (ctr : Nat) : Call → String
  | .message r => r.sessionId.getD (freshUuid (ctr + 1))
  | .respond r => r.sessionId.getD ""

/-- Whether a list of booleans is monotone: once `true` appears, every later
entry is `true` (so the `true`s form a suffix). -/
def boolMonotone : List Bool → Bool
  | [] => true
  | true :: rest => rest.all (fun b => b)
  | false :: rest => boolMonotone rest

/-- The number of clarification answers recorded for a session id (zero when
the session does not exist), the quantity `handle_respond` branches on under
`multi_clarification`. -/
def clarCount (st : Sessions) (sid : String) : Nat :=
  match alistLookup st sid with
  | some s => s.clarification_responses.length
  | none => 0

/-- Looking up the freshly inserted key returns the inserted value. -/
theorem alistLookup_insert_self {α : Type} (st : List (String × α)) (k : String)
    (v : α) : alistLookup (alistInsert st k v) k = some v := by
  induction st with
  | nil => simp [alistInsert, alistLookup]
  | cons hd tl ih =>
    obtain ⟨a, b⟩ := hd
    by_cases hak : a = k
    · simp [alistInsert, hak, alistLookup]
    · simp [alistInsert, hak, alistLookup, ih]

/-- A key present after an insert was present before or is the inserted key. -/
theorem alistLookup_insert_isSome {α : Type} (st : List (String × α))
    (k k' : String) (v : α)
    (h : (alistLookup (alistInsert st k' v) k).isSome = true) :
    (alistLookup st k).isSome = true ∨ k = k' := by
  induction st with
  | nil =>
    simp only [alistInsert, alistLookup] at h
    by_cases hk : k' = k
    · exact Or.inr hk.symm
    · simp [hk] at h
  | cons hd tl ih =>
    obtain ⟨a, b⟩ := hd
    by_cases hak : a = k'
    · simp only [alistInsert, if_pos hak, alistLookup] at h
      by_cases hk : k' = k
      · exact Or.inr hk.symm
      · simp only [if_neg hk] at h
        subst hak
        simp [alistLookup, hk, h]
    · simp only [alistInsert, if_neg hak, alistLookup] at h
      by_cases hk2 : a = k
      · simp [alistLookup, hk2]
      · simp only [if_neg hk2] at h
        rcases ih h with h' | h'
        · exact Or.inl (by simp [alistLookup, hk2, h'])
        · exact Or.inr h'

/-- A key present after `get_or_create_session` was present before or is the
session id the call was made for. -/
theorem lookup_goc_isSome (st : Sessions) (sid wid : String) (n : Nat)
    (k : String)
    (h : (alistLookup (get_or_create_session st sid wid n).2 k).isSome = true) :
    (alistLookup st k).isSome = true ∨ k = sid := by
  unfold get_or_create_session at h
  rcases hq : alistLookup st sid with _ | s
  · rw [hq] at h
    exact alistLookup_insert_isSome _ _ _ _ h
  · rw [hq] at h
    exact Or.inl h

/-- Sessions present after `run_full_plan_mode` were present before or belong
to the dispatched session id. -/
theorem dom_run_full_plan_mode (rid sid wid m : String) (st : Sessions)
    (ctr : Nat) (k : String)
    (h : (alistLookup (run_full_plan_mode rid sid wid m st ctr).2.1 k).isSome
      = true) : (alistLookup st k).isSome = true ∨ k = sid := by
  simp only [run_full_plan_mode] at h
  rcases alistLookup_insert_isSome _ _ _ _ h with h' | h'
  · exact lookup_goc_isSome _ _ _ _ _ h'
  · exact Or.inr h'

/-- Sessions present after `run_full_plan_mode_continued` were present before
or belong to the dispatched session id. -/
theorem dom_run_full_plan_mode_continued (rid sid wid : String)
    (answers : List (String × String)) (st : Sessions) (ctr : Nat) (k : String)
    (h : (alistLookup (run_full_plan_mode_continued rid sid wid answers st ctr).2.1
      k).isSome = true) : (alistLookup st k).isSome = true ∨ k = sid := by
  simp only [run_full_plan_mode_continued] at h
  rcases alistLookup_insert_isSome _ _ _ _ h with h' | h'
  · rcases alistLookup_insert_isSome _ _ _ _ h' with h2 | h2
    · rcases alistLookup_insert_isSome _ _ _ _ h2 with h3 | h3
      · exact lookup_goc_isSome _ _ _ _ _ h3
      · exact Or.inr h3
    · exact Or.inr h2
  · exact Or.inr h'

/-- Sessions present after `run_selection_to_completion` were present before
or belong to the dispatched session id. -/
theorem dom_run_selection_to_completion (rid sid wid : String)
    (ids : List String) (st : Sessions) (ctr : Nat) (k : String)
    (h : (alistLookup (run_selection_to_completion rid sid wid ids st ctr).2.1
      k).isSome = true) : (alistLookup st k).isSome = true ∨ k = sid := by
  simp only [run_selection_to_completion] at h
  rcases alistLookup_insert_isSome _ _ _ _ h with h' | h'
  · exact lookup_goc_isSome _ _ _ _ _ h'
  · exact Or.inr h'

/-- Sessions present after `run_preview_to_completion` were present before or
belong to the dispatched session id. -/
theorem dom_run_preview_to_completion (rid sid wid : String) (approved : Bool)
    (st : Sessions) (ctr : Nat) (k : String)
    (h : (alistLookup (run_preview_to_completion rid sid wid approved st ctr).2.1
      k).isSome = true) : (alistLookup st k).isSome = true ∨ k = sid := by
  cases approved with
  | false =>
    simp only [run_preview_to_completion, reduceIte] at h
    rcases alistLookup_insert_isSome _ _ _ _ h with h' | h'
    · exact lookup_goc_isSome _ _ _ _ _ h'
    · exact Or.inr h'
  | true =>
    simp only [run_preview_to_completion, reduceIte] at h
    rcases alistLookup_insert_isSome _ _ _ _ h with h' | h'
    · rcases alistLookup_insert_isSome _ _ _ _ h' with h2 | h2
      · exact lookup_goc_isSome _ _ _ _ _ h2
      · exact Or.inr h2
    · exact Or.inr h'

/-- Sessions present after `run_direct_execution` were present before or
belong to the dispatched session id. -/
theorem dom_run_direct_execution (rid sid wid m : String) (st : Sessions)
    (ctr : Nat) (k : String)
    (h : (alistLookup (run_direct_execution rid sid wid m st ctr).2.1 k).isSome
      = true) : (alistLookup st k).isSome = true ∨ k = sid := by
  simp only [run_direct_execution] at h
  rcases alistLookup_insert_isSome _ _ _ _ h with h' | h'
  · exact lookup_goc_isSome _ _ _ _ _ h'
  · exact Or.inr h'

/-- Sessions present after `run_error_mid_execution` were present before or
belong to the dispatched session id. -/
theorem dom_run_error_mid_execution (rid sid wid m : String) (st : Sessions)
    (ctr : Nat) (k : String)
    (h : (alistLookup (run_error_mid_execution rid sid wid m st ctr).2.1 k).isSome
      = true) : (alistLookup st k).isSome = true ∨ k = sid := by
  simp only [run_error_mid_execution] at h
  rcases alistLookup_insert_isSome _ _ _ _ h with h' | h'
  · exact lookup_goc_isSome _ _ _ _ _ h'
  · exact Or.inr h'

/-- Sessions present after `run_multi_clarification` were present before or
belong to the dispatched session id. -/
theorem dom_run_multi_clarification (rid sid wid m : String) (st : Sessions)
    (ctr : Nat) (k : String)
    (h : (alistLookup (run_multi_clarification rid sid wid m st ctr).2.1 k).isSome
      = true) : (alistLookup st k).isSome = true ∨ k = sid := by
  simp only [run_multi_clarification] at h
  rcases alistLookup_insert_isSome _ _ _ _ h with h' | h'
  · exact lookup_goc_isSome _ _ _ _ _ h'
  · exact Or.inr h'

/-- Sessions present after `run_multi_clarification_round2` were present
before or belong to the dispatched session id. -/
theorem dom_run_multi_clarification_round2 (rid sid wid : String)
    (answers : List (String × String)) (st : Sessions) (ctr : Nat) (k : String)
    (h : (alistLookup (run_multi_clarification_round2 rid sid wid answers st ctr).2.1
      k).isSome = true) : (alistLookup st k).isSome = true ∨ k = sid := by
  simp only [run_multi_clarification_round2] at h
  rcases alistLookup_insert_isSome _ _ _ _ h with h' | h'
  · exact lookup_goc_isSome _ _ _ _ _ h'
  · exact Or.inr h'

/-- Sessions present after `run_timeout_scenario` were present before or
belong to the dispatched session id. -/
theorem dom_run_timeout_scenario (rid sid wid m : String) (st : Sessions)
    (ctr : Nat) (k : String)
    (h : (alistLookup (run_timeout_scenario rid sid wid m st ctr).2.1 k).isSome
      = true) : (alistLookup st k).isSome = true ∨ k = sid := by
  simp only [run_timeout_scenario] at h
  exact lookup_goc_isSome _ _ _ _ _ h

/-- Sessions present after one dispatch step were present before or belong to
the session id the call resolved to: the dispatchers admit sessions into the
store only through `get_or_create_session` for the dispatched id. -/
theorem dom_step (scenario : String) (st : Sessions) (ctr : Nat) (c : Call)
    (k : String)
    (h : (alistLookup (step scenario (st, ctr) c).2.1 k).isSome = true) :
    (alistLookup st k).isSome = true ∨ k = callSessionId ctr c := by
  cases c with
  | message r =>
    simp only [step, handle_message, generateMessage] at h
    simp only [callSessionId]
    split_ifs at h
    · exact dom_run_error_mid_execution _ _ _ _ _ _ _ h
    · exact dom_run_timeout_scenario _ _ _ _ _ _ _ h
    · exact dom_run_multi_clarification _ _ _ _ _ _ _ h
    · exact dom_run_full_plan_mode _ _ _ _ _ _ _ h
    · exact dom_run_direct_execution _ _ _ _ _ _ _ h
    · exact dom_run_direct_execution _ _ _ _ _ _ _ h
  | respond r =>
    simp only [step, handle_respond, generateRespond] at h
    simp only [callSessionId]
    split_ifs at h
    · rcases dom_run_multi_clarification_round2 _ _ _ _ _ _ _ h with h' | h'
      · exact lookup_goc_isSome _ _ _ _ _ h'
      · exact Or.inr h'
    · rcases dom_run_direct_execution _ _ _ _ _ _ _ h with h' | h'
      · exact lookup_goc_isSome _ _ _ _ _ h'
      · exact Or.inr h'
    · exact dom_run_full_plan_mode_continued _ _ _ _ _ _ _ h
    · exact dom_run_selection_to_completion _ _ _ _ _ _ _ h
    · exact dom_run_preview_to_completion _ _ _ _ _ _ _ h
    · exact Or.inl h

/-- Claim C1, counterexample: in a single invocation of
`run_full_plan_mode_continued` the frame at index 1 (the `discovery_result`
payload) has state `input-required`, yet a third frame (the
`selection_required` payload) follows it in the same invocation, so a
handler does not always stop after yielding an `input-required` frame. -/
theorem continued_yields_after_input_required :
    (run_full_plan_mode_continued "req-1" "sess-1" "wf-1" [] [] 0).1.map
      isInputRequired = [false, true, true] ∧
    ((run_full_plan_mode_continued "req-1" "sess-1" "wf-1" [] [] 0).1.get? 1).map
      (fun f => frameHasType f "discovery_result") = some true := by
  exact ⟨rfl, rfl⟩

/-- Claim C1, amended: in every single invocation of every phase-handler, the
`input-required` frames form a suffix of the yielded frame sequence — once a
handler yields an `input-required` frame, every later frame of that same
invocation is also `input-required`, and the invocation ends on an
`input-required` frame; any non-`input-required` frame for the session can
then come only from a separate resumption call.  (`run_full_plan_mode_continued`
yields two consecutive `input-required` frames, `discovery_result` then
`selection_required`, and returns after the second.) -/
theorem input_required_suffix_all_handlers :
    (∀ rid sid wid m st ctr, boolMonotone
      ((run_full_plan_mode rid sid wid m st ctr).1.map isInputRequired) = true) ∧
    (∀ rid sid wid answers st ctr, boolMonotone
      ((run_full_plan_mode_continued rid sid wid answers st ctr).1.map
        isInputRequired) = true) ∧
    (∀ rid sid wid ids st ctr, boolMonotone
      ((run_selection_to_completion rid sid wid ids st ctr).1.map
        isInputRequired) = true) ∧
    (∀ rid sid wid approved st ctr, boolMonotone
      ((run_preview_to_completion rid sid wid approved st ctr).1.map
        isInputRequired) = true) ∧
    (∀ rid sid wid m st ctr, boolMonotone
      ((run_direct_execution rid sid wid m st ctr).1.map isInputRequired) = true) ∧
    (∀ rid sid wid m st ctr, boolMonotone
      ((run_error_mid_execution rid sid wid m st ctr).1.map isInputRequired)
        = true) ∧
    (∀ rid sid wid m st ctr, boolMonotone
      ((run_multi_clarification rid sid wid m st ctr).1.map isInputRequired)
        = true) ∧
    (∀ rid sid wid answers st ctr, boolMonotone
      ((run_multi_clarification_round2 rid sid wid answers st ctr).1.map
        isInputRequired) = true) ∧
    (∀ rid sid wid m st ctr, boolMonotone
      ((run_timeout_scenario rid sid wid m st ctr).1.map isInputRequired)
        = true) := by
  refine ⟨fun _ _ _ _ _ _ => rfl, fun _ _ _ _ _ _ => rfl, fun _ _ _ _ _ _ => rfl,
    fun _ _ _ b _ _ => ?_, fun _ _ _ _ _ _ => rfl, fun _ _ _ _ _ _ => rfl,
    fun _ _ _ _ _ _ => rfl, fun _ _ _ _ _ _ => rfl, fun _ _ _ _ _ _ => rfl⟩
  cases b <;> rfl

/-- Claim C2, counterexample: with the `error_mid_execution` scenario
configured, a first `POST /` leaves session `s` in phase `error`, and a
following `POST /a2a/respond` for the same session carrying
`{selectionId, selectedIds}` moves it to phase `preview` — the phase
sequence decreases and `error` is not absorbing. -/
theorem error_session_reenters_preview :
    (let o1 := step "error_mid_execution" ([], 0)
      (.message ⟨some "r1", some "s", some "w", [], none, none⟩)
     let o2 := step "error_mid_execution" (o1.2.1, o1.2.2)
      (.respond ⟨some "s", none, none, some "sel", some ["a"], none, none⟩)
     phaseOf o1.2.1 "s" = some "error" ∧ phaseOf o2.2.1 "s" = some "preview") := by
  exact ⟨rfl, rfl⟩

/-- Claim C2, amended: neither dispatch path consults the stored phase, so no
phase is absorbing: a `POST /a2a/respond` whose body matches the selection
shape (and not the clarification shape) sets the `current_phase` of the session
to `preview` unconditionally, whatever the phase was before — in particular
an errored or completed session is moved back to `preview`, and the observed
phase sequence of a session need not be non-decreasing. -/
theorem selection_resumption_forces_preview (scenario : String) (st : Sessions)
    (ctr : Nat) (req : RespondRequest) (h1 : clarShape req = false)
    (h2 : selShape req = true) :
    phaseOf (handle_respond scenario st ctr req).2.1 (req.sessionId.getD "")
      = some "preview" := by
  simp only [handle_respond, generateRespond, h1, h2, Bool.false_eq_true,
    if_false, if_true, run_selection_to_completion]
  simp [phaseOf, alistLookup_insert_self, SessionState.setPhase]

/-- Witness for `selection_resumption_forces_preview`: a concrete completed
session is sent back to `preview` by a selection resumption. -/
theorem selection_resumption_forces_preview_witness :
    phaseOf (handle_respond "direct_execution"
      [("s", ⟨"s", "w", "completed", [], [], [], 0⟩)] 3
      ⟨some "s", none, none, some "sel-1", some ["a", "b"], none, none⟩).2.1
      ((some "s" : Option String).getD "") = some "preview" := by
  exact selection_resumption_forces_preview "direct_execution"
    [("s", ⟨"s", "w", "completed", [], [], [], 0⟩)] 3
    ⟨some "s", none, none, some "sel-1", some ["a", "b"], none, none⟩ rfl rfl

/-- No phase-handler ever yields the sentinel frame itself. -/
theorem handlers_yield_no_sentinel :
    (∀ rid sid wid m st ctr, ((run_full_plan_mode rid sid wid m st ctr).1.all
      fun f => !f.isDone) = true) ∧
    (∀ rid sid wid answers st ctr,
      ((run_full_plan_mode_continued rid sid wid answers st ctr).1.all
        fun f => !f.isDone) = true) ∧
    (∀ rid sid wid ids st ctr,
      ((run_selection_to_completion rid sid wid ids st ctr).1.all
        fun f => !f.isDone) = true) ∧
    (∀ rid sid wid approved st ctr,
      ((run_preview_to_completion rid sid wid approved st ctr).1.all
        fun f => !f.isDone) = true) ∧
    (∀ rid sid wid m st ctr, ((run_direct_execution rid sid wid m st ctr).1.all
      fun f => !f.isDone) = true) ∧
    (∀ rid sid wid m st ctr,
      ((run_error_mid_execution rid sid wid m st ctr).1.all
        fun f => !f.isDone) = true) ∧
    (∀ rid sid wid m st ctr,
      ((run_multi_clarification rid sid wid m st ctr).1.all
        fun f => !f.isDone) = true) ∧
    (∀ rid sid wid answers st ctr,
      ((run_multi_clarification_round2 rid sid wid answers st ctr).1.all
        fun f => !f.isDone) = true) ∧
    (∀ rid sid wid m st ctr, ((run_timeout_scenario rid sid wid m st ctr).1.all
      fun f => !f.isDone) = true) := by
  refine ⟨fun _ _ _ _ _ _ => rfl, fun _ _ _ _ _ _ => rfl, fun _ _ _ _ _ _ => rfl,
    fun _ _ _ b _ _ => ?_, fun _ _ _ _ _ _ => rfl, fun _ _ _ _ _ _ => rfl,
    fun _ _ _ _ _ _ => rfl, fun _ _ _ _ _ _ => rfl, fun _ _ _ _ _ _ => rfl⟩
  cases b <;> rfl

/-- Appending the sentinel to a sentinel-free frame list gives a stream whose
only sentinel is its last frame. -/
theorem sentinel_shape (fs : List EventFrame)
    (h : (fs.all fun f => !f.isDone) = true) :
    (fs ++ [EventFrame.done]).countP (fun f => f.isDone) = 1 ∧
    (fs ++ [EventFrame.done]).getLast? = some EventFrame.done := by
  constructor
  · rw [List.countP_append]
    have h0 : fs.countP (fun f => f.isDone) = 0 := by
      rw [List.countP_eq_zero]
      intro a ha
      have := List.all_eq_true.mp h a ha
      simpa using this
    rw [h0]
    rfl
  · exact List.getLast?_concat _

/-- Claim C5: every streamed response of either endpoint, under every scenario
and dispatch path (the unknown-response-type path included), contains
exactly one sentinel frame, and that sentinel is the last frame. -/
theorem every_stream_single_trailing_sentinel (scenario : String)
    (s : Sessions × Nat) (c : Call) :
    (step scenario s c).1.countP (fun f => f.isDone) = 1 ∧
    (step scenario s c).1.getLast? = some EventFrame.done := by
  obtain ⟨st, ctr⟩ := s
  cases c with
  | message r =>
    simp only [step, handle_message, generateMessage]
    split_ifs
    · exact sentinel_shape _ (handlers_yield_no_sentinel.2.2.2.2.2.1 _ _ _ _ _ _)
    · exact sentinel_shape _
        (handlers_yield_no_sentinel.2.2.2.2.2.2.2.2 _ _ _ _ _ _)
    · exact sentinel_shape _
        (handlers_yield_no_sentinel.2.2.2.2.2.2.1 _ _ _ _ _ _)
    · exact sentinel_shape _ (handlers_yield_no_sentinel.1 _ _ _ _ _ _)
    · exact sentinel_shape _ (handlers_yield_no_sentinel.2.2.2.2.1 _ _ _ _ _ _)
    · exact sentinel_shape _ (handlers_yield_no_sentinel.2.2.2.2.1 _ _ _ _ _ _)
  | respond r =>
    simp only [step, handle_respond, generateRespond]
    split_ifs
    · exact sentinel_shape _
        (handlers_yield_no_sentinel.2.2.2.2.2.2.2.1 _ _ _ _ _ _)
    · exact sentinel_shape _ (handlers_yield_no_sentinel.2.2.2.2.1 _ _ _ _ _ _)
    · exact sentinel_shape _ (handlers_yield_no_sentinel.2.1 _ _ _ _ _ _)
    · exact sentinel_shape _ (handlers_yield_no_sentinel.2.2.1 _ _ _ _ _ _)
    · exact sentinel_shape _ (handlers_yield_no_sentinel.2.2.2.1 _ _ _ _ _ _)
    · exact sentinel_shape _ rfl

/-- Claim C3: `handle_message` refines the specified dispatch rule — with the
plan-mode flag the boolean OR of `message.metadata.plan_mode_enabled` and
`params.metadata.planMode` (`planModeFlag`), the three fixed scenarios run
unconditionally in priority order, `full_plan_mode` runs exactly when
configured together with the flag, and every other case (configured
`direct_execution`, an unrecognized scenario name, or `full_plan_mode`
without plan mode) runs `run_direct_execution`. -/
theorem message_dispatch_matches_spec (scenario : String) (st : Sessions)
    (ctr : Nat) (req : MessageRequest) :
    handle_message scenario st ctr req = handle_message_spec scenario st ctr req := by
  simp only [handle_message, handle_message_spec, generateMessage,
    generateMessageSpec]
  split_ifs <;> rfl

/-- Claim C7: rejecting the preview (`approved = false`) makes
`run_preview_to_completion` yield exactly one frame, of kind `message`,
carrying the literal cancellation notice; the session phase becomes
`completed`; no frame carries a `file_created` payload and no frame is a
status update (in particular there are no `working` execution-step frames). -/
theorem preview_rejection_single_cancellation (rid sid wid : String)
    (st : Sessions) (ctr : Nat) :
    ((run_preview_to_completion rid sid wid false st ctr).1.map frameKind
      = [some "message"]) ∧
    ((run_preview_to_completion rid sid wid false st ctr).1.map frameTexts
      = [["Analysis cancelled. Let me know if you\x27d like to try something different."]]) ∧
    (∀ f ∈ (run_preview_to_completion rid sid wid false st ctr).1,
      frameHasType f "file_created" = false ∧ frameState f = none) ∧
    phaseOf (run_preview_to_completion rid sid wid false st ctr).2.1 sid
      = some "completed" := by
  refine ⟨rfl, rfl, ?_, ?_⟩
  · intro f hf
    simp only [run_preview_to_completion, eq_self_iff_true, if_true,
      List.mem_singleton] at hf
    subst hf
    exact ⟨rfl, rfl⟩
  · simp only [run_preview_to_completion, if_pos rfl]
    simp [phaseOf, alistLookup_insert_self, SessionState.setPhase]

/-- A list is a prefix of itself followed by anything. -/
theorem isPrefixOfB_append (l t : List Char) : isPrefixOfB l (l ++ t) = true := by
  induction l with
  | nil => rfl
  | cons a as ih => simp [isPrefixOfB, ih]

/-- The empty list occurs in every list. -/
theorem isSubListB_nil (w : List Char) : isSubListB [] w = true := by
  induction w with
  | nil => rfl
  | cons b rest _ => simp [isSubListB, isPrefixOfB]

/-- A list occurs in any surrounding context. -/
theorem isSubListB_append_right (p l t : List Char) :
    isSubListB l (p ++ (l ++ t)) = true := by
  induction p with
  | nil =>
    cases l with
    | nil => simpa using isSubListB_nil t
    | cons c ls => simp [isSubListB, isPrefixOfB, isPrefixOfB_append]
  | cons c p' ih => simp [isSubListB, ih]

/-- A string occurs in any two-sided concatenation around it. -/
theorem strContains_mid (p s t : String) : strContains ((p ++ s) ++ t) s = true := by
  show isSubListB s.data ((p.data ++ s.data) ++ t.data) = true
  rw [List.append_assoc]
  exact isSubListB_append_right p.data s.data t.data

/-- A string occurs in any concatenation it ends. -/
theorem strContains_suffix (p s : String) : strContains (p ++ s) s = true := by
  show isSubListB s.data (p.data ++ s.data) = true
  have h := isSubListB_append_right p.data s.data []
  rwa [List.append_nil] at h

/-- Claim C8: in the full-plan-mode continuation, the `discovery_result`
frame has items synthesized from the `topic` answer (default `"tech"`):
for every answers map its item names are `r/(topic)`, `r/(topic)news` and
`r/ask(topic)`, and every item name yielded by the invocation contains the
topic string as a substring. -/
theorem discovery_items_contain_topic (rid sid wid : String)
    (answers : List (String × String)) (st : Sessions) (ctr : Nat) :
    (let topic := (alistLookup answers "topic").getD "tech"
     let out := run_full_plan_mode_continued rid sid wid answers st ctr
     (((out.1.get? 1).map fun f => frameHasType f "discovery_result") = some true) ∧
     ((out.1.get? 1).map frameItemNames
        = some ["r/" ++ topic, "r/" ++ topic ++ "news", "r/ask" ++ topic]) ∧
     ∀ n ∈ out.1.flatMap frameItemNames, strContains n topic = true) := by
  refine ⟨rfl, rfl, ?_⟩
  intro n hn
  have hEq : (run_full_plan_mode_continued rid sid wid answers st ctr).1.flatMap
      frameItemNames
      = ["r/" ++ ((alistLookup answers "topic").getD "tech"),
         "r/" ++ ((alistLookup answers "topic").getD "tech") ++ "news",
         "r/ask" ++ ((alistLookup answers "topic").getD "tech"),
         "r/" ++ ((alistLookup answers "topic").getD "tech"),
         "r/" ++ ((alistLookup answers "topic").getD "tech") ++ "news",
         "r/ask" ++ ((alistLookup answers "topic").getD "tech")] := rfl
  rw [hEq] at hn
  simp only [List.mem_cons, List.not_mem_nil, or_false] at hn
  rcases hn with hn' | hn' | hn' | hn' | hn' | hn' <;> subst hn'
  · exact strContains_suffix _ _
  · exact strContains_mid _ _ _
  · exact strContains_suffix _ _
  · exact strContains_suffix _ _
  · exact strContains_mid _ _ _
  · exact strContains_suffix _ _

/-- Claim C6: a `POST /a2a/respond` matching none of the three answer shapes
yields exactly one status-update frame in state `failed` carrying the
literal text `Unknown response type`, followed by the sentinel, and leaves
the session store completely unchanged. -/
theorem unknown_respond_shape_no_mutation (scenario : String) (st : Sessions)
    (ctr : Nat) (req : RespondRequest) (h1 : clarShape req = false)
    (h2 : selShape req = false) (h3 : planShape req = false) :
    ((handle_respond scenario st ctr req).1.map frameKind
      = [some "status-update", none]) ∧
    ((handle_respond scenario st ctr req).1.map frameState
      = [some "failed", none]) ∧
    ((handle_respond scenario st ctr req).1.map frameTexts
      = [["Unknown response type"], []]) ∧
    (handle_respond scenario st ctr req).1.getLast? = some EventFrame.done ∧
    (handle_respond scenario st ctr req).2.1 = st := by
  simp only [handle_respond, generateRespond, h1, h2, h3, Bool.false_eq_true,
    if_false]
  refine ⟨?_, ?_, ?_, ?_, ?_⟩ <;> first | rfl | trivial

/-- Witness for `unknown_respond_shape_no_mutation`: a concrete body with no
matching shape produces only the failure frame and the sentinel, and an
empty store stays empty. -/
theorem unknown_respond_shape_no_mutation_witness :
    ((handle_respond "full_plan_mode" [] 0
      ⟨some "s", none, none, none, none, none, none⟩).1.map frameKind
      = [some "status-update", none]) ∧
    ((handle_respond "full_plan_mode" [] 0
      ⟨some "s", none, none, none, none, none, none⟩).1.map frameState
      = [some "failed", none]) ∧
    ((handle_respond "full_plan_mode" [] 0
      ⟨some "s", none, none, none, none, none, none⟩).1.map frameTexts
      = [["Unknown response type"], []]) ∧
    (handle_respond "full_plan_mode" [] 0
      ⟨some "s", none, none, none, none, none, none⟩).1.getLast?
      = some EventFrame.done ∧
    (handle_respond "full_plan_mode" [] 0
      ⟨some "s", none, none, none, none, none, none⟩).2.1 = [] :=
  unknown_respond_shape_no_mutation "full_plan_mode" [] 0
    ⟨some "s", none, none, none, none, none, none⟩ rfl rfl rfl

/-- Claim C9: `get_or_create_session` creates each session at most once — a
present session id returns the stored session object and the unchanged
store, whatever workflow id is passed, while an absent id stores and
returns a fresh session with phase `initial` and empty response maps — and
the dispatchers admit sessions into the store only at the id each call is
dispatched against (via `get_or_create_session`). -/
theorem session_created_at_most_once :
    (∀ (st : Sessions) (sid wid : String) (n : Nat),
      (∀ s, alistLookup st sid = some s →
        get_or_create_session st sid wid n = (s, st)) ∧
      (alistLookup st sid = none →
        get_or_create_session st sid wid n =
          ((⟨sid, wid, "initial", [], [], [], n⟩ : SessionState),
            alistInsert st sid ⟨sid, wid, "initial", [], [], [], n⟩))) ∧
    (∀ (scenario : String) (st : Sessions) (ctr : Nat) (c : Call) (k : String),
      (alistLookup (step scenario (st, ctr) c).2.1 k).isSome = true →
      (alistLookup st k).isSome = true ∨ k = callSessionId ctr c) := by
  constructor
  · intro st sid wid n
    constructor
    · intro s hs
      simp [get_or_create_session, hs]
    · intro hs
      simp [get_or_create_session, hs]
  · intro scenario st ctr c k hk
    exact dom_step scenario st ctr c k hk

/-- Witness for `session_created_at_most_once`: looking up a stored session
with a different workflow id returns it untouched together with the
untouched store. -/
theorem session_created_at_most_once_witness :
    get_or_create_session
      [("s", ⟨"s", "w", "preview", [("q", "a")], [], [], 4⟩)] "s" "other-wf" 9
      = (⟨"s", "w", "preview", [("q", "a")], [], [], 4⟩,
        [("s", ⟨"s", "w", "preview", [("q", "a")], [], [], 4⟩)]) :=
  (session_created_at_most_once.1
    [("s", ⟨"s", "w", "preview", [("q", "a")], [], [], 4⟩)] "s" "other-wf" 9).1
    ⟨"s", "w", "preview", [("q", "a")], [], [], 4⟩ rfl

/-- Claim C10: a `POST /a2a/respond` whose session id is unknown but whose
body matches the selection shape is not rejected: the matched handler runs
against a lazily created blank session, immediately yields the
`preview_ready` `input-required` frame, and leaves the new session in phase
`preview` with a freshly generated workflow id (the next fresh draw, not
anything the client named). -/
theorem unknown_session_selection_runs (scenario : String) (st : Sessions)
    (ctr : Nat) (req : RespondRequest)
    (habs : alistLookup st (req.sessionId.getD "") = none)
    (h1 : clarShape req = false) (h2 : selShape req = true) :
    (((handle_respond scenario st ctr req).1.get? 0).bind frameState
      = some "input-required") ∧
    (((handle_respond scenario st ctr req).1.get? 0).map framePayloadTypes
      = some ["preview_ready"]) ∧
    phaseOf (handle_respond scenario st ctr req).2.1 (req.sessionId.getD "")
      = some "preview" ∧
    ((alistLookup (handle_respond scenario st ctr req).2.1
      (req.sessionId.getD "")).map SessionState.workflow_id
      = some (freshUuid ctr)) := by
  simp only [handle_respond, generateRespond, h1, h2, Bool.false_eq_true,
    if_false, if_true, habs, run_selection_to_completion,
    get_or_create_session]
  refine ⟨rfl, rfl, ?_, ?_⟩
  · simp [phaseOf, alistLookup_insert_self, SessionState.setPhase]
  · simp [alistLookup_insert_self, SessionState.setPhase]

/-- Witness for `unknown_session_selection_runs`: a selection resumption for
the unknown session id `zz` against the empty store yields the preview
frame and installs a `preview`-phase session with the fresh workflow id. -/
theorem unknown_session_selection_runs_witness :
    (((handle_respond "full_plan_mode" [] 7
      ⟨some "zz", none, none, some "sel", some ["x", "y"], none, none⟩).1.get? 0).bind
      frameState = some "input-required") ∧
    (((handle_respond "full_plan_mode" [] 7
      ⟨some "zz", none, none, some "sel", some ["x", "y"], none, none⟩).1.get? 0).map
      framePayloadTypes = some ["preview_ready"]) ∧
    phaseOf (handle_respond "full_plan_mode" [] 7
      ⟨some "zz", none, none, some "sel", some ["x", "y"], none, none⟩).2.1
      ((some "zz" : Option String).getD "") = some "preview" ∧
    ((alistLookup (handle_respond "full_plan_mode" [] 7
      ⟨some "zz", none, none, some "sel", some ["x", "y"], none, none⟩).2.1
      ((some "zz" : Option String).getD "")).map SessionState.workflow_id
      = some (freshUuid 7)) :=
  unknown_session_selection_runs "full_plan_mode" [] 7
    ⟨some "zz", none, none, some "sel", some ["x", "y"], none, none⟩ rfl rfl rfl

/-- Claim C4: under the `multi_clarification` scenario a clarification-shaped
resumption is routed by the size of the accumulated per-session
`clarification_responses` map, not by the stored phase: with no recorded
answers the second round runs (a `working` frame then the `input-required`
`timeframe` question, and the supplied answers are recorded on the
session); with any recorded answers the direct-execution completion path
runs with the fixed literal `Final response`, whose final `message` frame
contains that literal. -/
theorem multi_clarification_round_dispatch (st : Sessions) (ctr : Nat)
    (req : RespondRequest) (h : clarShape req = true) :
    (clarCount st (req.sessionId.getD "") = 0 →
      ((handle_respond "multi_clarification" st ctr req).1.map frameState
        = [some "working", some "input-required", none]) ∧
      (((handle_respond "multi_clarification" st ctr req).1.get? 1).map
        frameQuestionIds = some ["timeframe"]) ∧
      ((alistLookup (handle_respond "multi_clarification" st ctr req).2.1
        (req.sessionId.getD "")).map SessionState.clarification_responses
        = some (dictUpdate [] (req.answers.getD [])))) ∧
    (clarCount st (req.sessionId.getD "") ≠ 0 →
      ((handle_respond "multi_clarification" st ctr req).1.map frameKind
        = [some "status-update", some "message", none]) ∧
      (((handle_respond "multi_clarification" st ctr req).1.get? 1).map
        (fun f => (frameTexts f).any fun t => strContains t "Final response")
        = some true)) := by
  rcases hq : alistLookup st (req.sessionId.getD "") with _ | s
  · constructor
    · intro _
      simp only [handle_respond, generateRespond, h, eq_self_iff_true, if_true,
        hq, get_or_create_session, List.length_nil,
        run_multi_clarification_round2, alistLookup_insert_self]
      refine ⟨rfl, rfl, ?_⟩
      simp [SessionState.updateClarifications, alistLookup_insert_self]
    · intro hc
      exact absurd (by simp [clarCount, hq]) hc
  · have hcc : clarCount st (req.sessionId.getD "")
        = s.clarification_responses.length := by
      simp [clarCount, hq]
    constructor
    · intro hc
      have hlen : s.clarification_responses.length = 0 := by rw [← hcc]; exact hc
      have hnil : s.clarification_responses = [] :=
        List.length_eq_zero.mp hlen
      simp only [handle_respond, generateRespond, h, eq_self_iff_true, if_true,
        hq, get_or_create_session, hlen, run_multi_clarification_round2,
        alistLookup_insert_self]
      refine ⟨rfl, rfl, ?_⟩
      simp [SessionState.updateClarifications, alistLookup_insert_self, hnil]
    · intro hc
      have hlen : ¬ s.clarification_responses.length = 0 := by
        rw [← hcc]; exact hc
      simp only [handle_respond, generateRespond, h, eq_self_iff_true, if_true,
        hq, get_or_create_session, if_neg hlen, run_direct_execution]
      exact ⟨rfl, rfl⟩

/-- Witness for `multi_clarification_round_dispatch`: the first clarification
resumption of a fresh session (no recorded answers) runs the second round,
asks `timeframe`, and records the supplied answer. -/
theorem multi_clarification_round_dispatch_witness :
    ((handle_respond "multi_clarification" [] 0
      ⟨some "s", some "c", some [("category", "news")], none, none, none,
        none⟩).1.map frameState
      = [some "working", some "input-required", none]) ∧
    (((handle_respond "multi_clarification" [] 0
      ⟨some "s", some "c", some [("category", "news")], none, none, none,
        none⟩).1.get? 1).map frameQuestionIds = some ["timeframe"]) ∧
    ((alistLookup (handle_respond "multi_clarification" [] 0
      ⟨some "s", some "c", some [("category", "news")], none, none, none,
        none⟩).2.1 ((some "s" : Option String).getD "")).map
      SessionState.clarification_responses
      = some (dictUpdate []
        ((some [("category", "news")] : Option (List (String × String))).getD []))) :=
  (multi_clarification_round_dispatch [] 0
    ⟨some "s", some "c", some [("category", "news")], none, none, none, none⟩
    rfl).1 rfl

/-- Witness for `input_required_suffix_all_handlers`: the frames of a concrete
`run_full_plan_mode_continued` invocation have their `input-required`
frames as a suffix. -/
theorem input_required_suffix_all_handlers_witness :
    boolMonotone ((run_full_plan_mode_continued "r" "s" "w" [] [] 0).1.map
      isInputRequired) = true :=
  input_required_suffix_all_handlers.2.1 "r" "s" "w" [] [] 0

/-- Witness for `message_dispatch_matches_spec`: a concrete `full_plan_mode`
request without plan mode dispatches exactly as the specification rule. -/
theorem message_dispatch_matches_spec_witness :
    handle_message "full_plan_mode" [] 0
      ⟨some "r", some "s", some "w", [InPart.text "hi"], none, none⟩
      = handle_message_spec "full_plan_mode" [] 0
        ⟨some "r", some "s", some "w", [InPart.text "hi"], none, none⟩ :=
  message_dispatch_matches_spec "full_plan_mode" [] 0
    ⟨some "r", some "s", some "w", [InPart.text "hi"], none, none⟩

/-- Witness for `every_stream_single_trailing_sentinel`: a concrete
`timeout_scenario` message stream has exactly one sentinel and ends on it. -/
theorem every_stream_single_trailing_sentinel_witness :
    (step "timeout_scenario" ([], 0)
      (.message ⟨some "r", some "s", some "w", [], none, none⟩)).1.countP
      (fun f => f.isDone) = 1 ∧
    (step "timeout_scenario" ([], 0)
      (.message ⟨some "r", some "s", some "w", [], none, none⟩)).1.getLast?
      = some EventFrame.done :=
  every_stream_single_trailing_sentinel "timeout_scenario" ([], 0)
    (.message ⟨some "r", some "s", some "w", [], none, none⟩)

/-- Witness for `preview_rejection_single_cancellation`: a concrete rejected
preview yields only the cancellation message and completes the session. -/
theorem preview_rejection_single_cancellation_witness :
    ((run_preview_to_completion "r" "s" "w" false [] 0).1.map frameKind
      = [some "message"]) ∧
    ((run_preview_to_completion "r" "s" "w" false [] 0).1.map frameTexts
      = [["Analysis cancelled. Let me know if you\x27d like to try something different."]]) ∧
    (∀ f ∈ (run_preview_to_completion "r" "s" "w" false [] 0).1,
      frameHasType f "file_created" = false ∧ frameState f = none) ∧
    phaseOf (run_preview_to_completion "r" "s" "w" false [] 0).2.1 "s"
      = some "completed" :=
  preview_rejection_single_cancellation "r" "s" "w" [] 0

/-- Witness for `discovery_items_contain_topic`: answering
`{topic: "science"}` produces three discovery items whose names each
contain `science`. -/
theorem discovery_items_contain_topic_witness :
    (let topic := (alistLookup [("topic", "science")] "topic").getD "tech"
     let out := run_full_plan_mode_continued "r" "s" "w" [("topic", "science")] [] 0
     (((out.1.get? 1).map fun f => frameHasType f "discovery_result") = some true) ∧
     ((out.1.get? 1).map frameItemNames
        = some ["r/" ++ topic, "r/" ++ topic ++ "news", "r/ask" ++ topic]) ∧
     ∀ n ∈ out.1.flatMap frameItemNames, strContains n topic = true) :=
  discovery_items_contain_topic "r" "s" "w" [("topic", "science")] [] 0
